import Mathlib

/-!
Shallow embedding of the krk-stayawake scheduling/cancellation core
(src/app.js) and proofs about its specified behaviour.

Time is modelled in integer milliseconds for the scheduler layer and in
rational seconds for the audio layer (matching the source's Date.now()
and AudioContext.currentTime units).  Asynchronous method bodies are
embedded as pure state transformers that additionally emit the ordered
list of externally observable actions they perform.
-/

/-- Rounding as performed by Math.round: floor(a / b + 1/2), for an integer
numerator a and positive integer denominator b. -/
def jsRoundDiv (a b : Int) : Int := Int.fdiv (2 * a + b) (2 * b)

/-- State of one PeriodicCallback instance (src/app.js, class PeriodicCallback):
the configured period, the published next-fire timestamp, the setInterval
handle (none while stopped) and the reentrancy guard flag. -/
structure PeriodicCallback where
  delayMsec : Int
  nextUnixMsec : Int
  callbackId : Option Nat
  isCurrentlyRunning : Bool
deriving DecidableEq

/-- Result of one timer fire of a PeriodicCallback. -/
inductive FireResult where
  | overlapError
  | invoked
deriving DecidableEq

/-- Settlement of an asynchronous callback: fulfilled or rejected. -/
inductive JsOutcome where
  | success
  | failure (msg : String)
deriving DecidableEq

/-- Embedding of the synchronous prefix of PeriodicCallback.callFn_
(src/app.js:99-116): record the next fire time, then either throw a single
OverlappingInvocationError without invoking the callback (when the guard is
set), or set the guard and invoke the callback. -/
def PeriodicCallback.callFn_ (s : PeriodicCallback) (now : Int) :
    PeriodicCallback × FireResult :=
  let s1 := { s with nextUnixMsec := now + s.delayMsec }
  if s1.isCurrentlyRunning then (s1, FireResult.overlapError)
  else ({ s1 with isCurrentlyRunning := true }, FireResult.invoked)

/-- Embedding of the finally block of PeriodicCallback.callFn_: once the
awaited callback settles (with either outcome) the guard flag is cleared and
the outcome is propagated unchanged. -/
def PeriodicCallback.settleFn_ (s : PeriodicCallback) (outcome : JsOutcome) :
    PeriodicCallback × JsOutcome :=
  ({ s with isCurrentlyRunning := false }, outcome)

/-- What PeriodicCallback.start did: nothing, or armed a repeating timer with
the given period and performed the immediate fire with the given result. -/
inductive StartEffect where
  | noop
  | started (periodMsec : Int) (fire : FireResult)
deriving DecidableEq

/-- Embedding of PeriodicCallback.start (src/app.js:85-89): a no-op when a
timer handle is already present; otherwise stores a fresh setInterval handle
(armed at delayMsec) and invokes callFn_ immediately. -/
def PeriodicCallback.start (s : PeriodicCallback) (newId : Nat) (now : Int) :
    PeriodicCallback × StartEffect :=
  if s.callbackId.isSome then (s, StartEffect.noop)
  else
    let armed := { s with callbackId := some newId }
    let fired := armed.callFn_ now
    (fired.1, StartEffect.started s.delayMsec fired.2)

/-- C1: a PeriodicCallback fire that arrives while the previous invocation is
still unresolved raises exactly one OverlappingInvocationError and does not
invoke the callback; a fire that arrives while idle sets the guard, invokes
the callback, and the guard is cleared when the callback settles, whether it
settles with success or with failure. -/
theorem periodicCallback_overlap_guard (s : PeriodicCallback) (now : Int) :
    (s.isCurrentlyRunning = true →
      s.callFn_ now =
        ({ s with nextUnixMsec := now + s.delayMsec }, FireResult.overlapError))
    ∧ (s.isCurrentlyRunning = false →
      (s.callFn_ now).2 = FireResult.invoked
      ∧ (s.callFn_ now).1.isCurrentlyRunning = true
      ∧ ∀ o : JsOutcome,
          ((s.callFn_ now).1.settleFn_ o).1.isCurrentlyRunning = false
          ∧ ((s.callFn_ now).1.settleFn_ o).2 = o) := by
  constructor
  · intro h
    simp [PeriodicCallback.callFn_, h]
  · intro h
    simp [PeriodicCallback.callFn_, PeriodicCallback.settleFn_, h]

/-- Witness for the overlap-guard theorem at concrete states: one busy
scheduler (fire refused) and one idle scheduler (fire invoked and settled). -/
theorem periodicCallback_overlap_guard_witness :
    (PeriodicCallback.callFn_ ⟨1000, 0, some 1, true⟩ 5
      = (⟨1000, 1005, some 1, true⟩, FireResult.overlapError))
    ∧ ((PeriodicCallback.callFn_ ⟨1000, 0, some 1, false⟩ 5).2
        = FireResult.invoked) := by
  refine ⟨(periodicCallback_overlap_guard ⟨1000, 0, some 1, true⟩ 5).1 rfl, ?_⟩
  exact ((periodicCallback_overlap_guard ⟨1000, 0, some 1, false⟩ 5).2 rfl).1

/-- C6: PeriodicCallback.start is a no-op while a timer handle is present;
while stopped it arms the repeating timer at the configured period and
immediately performs one trigger at the start instant itself (so with the
guard clear, the callback executes now and the next fire is one full period
away, i.e. the first execution happens at t = 0). -/
theorem periodicCallback_start_semantics (s : PeriodicCallback)
    (newId : Nat) (now : Int) :
    (s.callbackId.isSome = true → s.start newId now = (s, StartEffect.noop))
    ∧ (s.callbackId = none →
        (∃ r, (s.start newId now).2 = StartEffect.started s.delayMsec r)
        ∧ (s.isCurrentlyRunning = false →
            s.start newId now =
              ({ s with callbackId := some newId,
                        nextUnixMsec := now + s.delayMsec,
                        isCurrentlyRunning := true },
               StartEffect.started s.delayMsec FireResult.invoked))) := by
  constructor
  · intro h
    simp [PeriodicCallback.start, h]
  · intro h
    constructor
    · simp [PeriodicCallback.start, PeriodicCallback.callFn_, h]
    · intro hb
      simp [PeriodicCallback.start, PeriodicCallback.callFn_, h, hb]

/-- Witness for the start-semantics theorem: a running scheduler is left
untouched, and a stopped idle scheduler is armed and fired immediately. -/
theorem periodicCallback_start_semantics_witness :
    (PeriodicCallback.start ⟨1000, 7, some 3, false⟩ 9 50
      = (⟨1000, 7, some 3, false⟩, StartEffect.noop))
    ∧ (PeriodicCallback.start ⟨1000, 0, none, false⟩ 9 50
      = (⟨1000, 1050, some 9, true⟩, StartEffect.started 1000 FireResult.invoked)) := by
  refine ⟨(periodicCallback_start_semantics ⟨1000, 7, some 3, false⟩ 9 50).1 rfl, ?_⟩
  exact ((periodicCallback_start_semantics ⟨1000, 0, none, false⟩ 9 50).2 rfl).2 rfl

/-- State of a DOM AbortSignal, as used by the code via AbortController:
whether abort() has fired, and the registered abort listeners (by id).
Per the DOM event model, the abort event is dispatched exactly once, at the
moment abort() transitions the signal to aborted; addEventListener performs
no dispatch of its own. -/
structure AbortSignal where
  aborted : Bool
  listeners : List Nat
deriving DecidableEq

/-- DOM addEventListener on the abort event: records the listener and invokes
nothing now (the returned list is the listeners invoked by this call). -/
def AbortSignal.addEventListener (s : AbortSignal) (l : Nat) :
    AbortSignal × List Nat :=
  ({ s with listeners := s.listeners ++ [l] }, [])

/-- DOM AbortController.abort(): on the first call, marks the signal aborted
and dispatches the abort event to every listener registered so far; on later
calls it is a no-op dispatching nothing. -/
def AbortSignal.abort (s : AbortSignal) : AbortSignal × List Nat :=
  if s.aborted then (s, []) else ({ s with aborted := true }, s.listeners)

/-- One interaction with an abort signal: a cancel() call or the registration
of a listener (as startOscillator performs at src/app.js:57). -/
inductive SigAction where
  | abortCall
  | register (l : Nat)
deriving DecidableEq

/-- Runs a sequence of signal interactions, collecting every listener
invocation that occurs. -/
def runSignal : AbortSignal → List SigAction → AbortSignal × List Nat
  | s, [] => (s, [])
  | s, a :: rest =>
    let step := match a with
      | SigAction.abortCall => s.abort
      | SigAction.register l => s.addEventListener l
    let next := runSignal step.1 rest
    (next.1, step.2 ++ next.2)

/-- Settlement of the promise returned by startOscillator. -/
inductive OscSettle where
  | resolvedNatural
  | abortedError
deriving DecidableEq

/-- From startOscillator (src/app.js:51-61): the promise rejects with
AbortedError exactly when the registered abort listener is invoked (that
listener also stops the oscillator early); otherwise the oscillator runs to
its scheduled stop time and the onended handler resolves the promise. -/
def startOscillatorSettle (invoked : List Nat) (l : Nat) : OscSettle :=
  if l ∈ invoked then OscSettle.abortedError else OscSettle.resolvedNatural

/-- C2: cancelling the token before startOscillator registers its abort
listener leaves that listener uninvoked forever (the DOM dispatches the abort
event only at the abort() call itself), so the oscillator is not stopped
early and the operation resolves naturally instead of settling as
AbortedError; only a listener registered before cancellation is invoked and
yields the AbortedError settlement. -/
theorem abortBeforeRegistration_missesCancellation :
    (runSignal ⟨false, []⟩ [SigAction.abortCall, SigAction.register 7]).2 = []
    ∧ startOscillatorSettle
        (runSignal ⟨false, []⟩ [SigAction.abortCall, SigAction.register 7]).2 7
      = OscSettle.resolvedNatural
    ∧ (runSignal ⟨false, []⟩ [SigAction.register 7, SigAction.abortCall]).2 = [7]
    ∧ startOscillatorSettle
        (runSignal ⟨false, []⟩ [SigAction.register 7, SigAction.abortCall]).2 7
      = OscSettle.abortedError := by
  decide

/-- State of one PingController instance (src/app.js:260-305): pan position,
chord frequencies, burst duration in seconds, and the id of the abort
controller covering the previous burst. -/
structure PingController where
  pan_ : Rat
  freqs_ : List Rat
  ping_duration_secs_ : Rat
  abortPreviousPing_ : Nat
deriving DecidableEq

/-- How one constituent tone of a burst settled. -/
inductive ToneOutcome where
  | endedNaturally
  | abortedTone
deriving DecidableEq

/-- Externally observable actions of PingController.playPingSound, in
program order. -/
inductive PingEvent where
  | tokenAborted (id : Nat)
  | gainCreated
  | gainConnected
  | gainLevelSet (level : Rat)
  | gainRampScheduled (target stopTime : Rat)
  | toneStarted (freq panValue : Rat)
  | toneSettled (freq : Rat) (o : ToneOutcome)
  | gainDisconnected
deriving DecidableEq

/-- Embedding of PingController.playPingSound (src/app.js:278-304).
Inputs beyond the instance state: whether the destination-node factory
yielded a destination, the audio clock at entry, the id of the freshly minted
abort controller, and how each constituent tone eventually settles.  Returns
the thrown error (if any), the updated instance state, and the ordered
observable actions: a missing destination throws before anything else
happens; otherwise the previous burst's controller is aborted, a fresh one
stored, one shared gain node is created, connected and levelled at
0.95 / freqs.length with an exponential ramp to 0.001 at stopTime, every
tone is started against that gain node, and only after all tones have
settled (Promise.allSettled) is the gain node disconnected. -/
def PingController.playPingSound (s : PingController)
    (destinationAvailable : Bool) (now : Rat) (newTokenId : Nat)
    (outcomes : List ToneOutcome) :
    Option String × PingController × List PingEvent :=
  if destinationAvailable = false then
    (some "Failed to initialize AudioContext", s, [])
  else
    let stopTime := now + s.ping_duration_secs_
    let level := (95 : Rat) / 100 / (s.freqs_.length : Rat)
    let startEvents := s.freqs_.map (fun f => PingEvent.toneStarted f s.pan_)
    let settleEvents :=
      (s.freqs_.zip outcomes).map (fun p => PingEvent.toneSettled p.1 p.2)
    (none,
     { s with abortPreviousPing_ := newTokenId },
     (PingEvent.tokenAborted s.abortPreviousPing_
        :: PingEvent.gainCreated
        :: PingEvent.gainConnected
        :: PingEvent.gainLevelSet level
        :: PingEvent.gainRampScheduled ((1 : Rat) / 1000) stopTime
        :: (startEvents ++ settleEvents))
       ++ [PingEvent.gainDisconnected])

/-- C3: for a burst over a non-empty chord in which every tone eventually
settles, the burst completes without error for every mix of aborted and
natural outcomes (settle-all, not fail-fast); exactly one shared gain stage
is created and its level is set to 0.95 divided by the number of tones;
every tone is started against it; and the gain stage is disconnected exactly
once, as the final action, strictly after every tone's settlement. -/
theorem pingBurst_settleAll (s : PingController) (now : Rat) (newTok : Nat)
    (outcomes : List ToneOutcome)
    (hne : s.freqs_ ≠ [])
    (hlen : outcomes.length = s.freqs_.length) :
    (s.playPingSound true now newTok outcomes).1 = none
    ∧ ((s.playPingSound true now newTok outcomes).2.2).getLast?
        = some PingEvent.gainDisconnected
    ∧ List.count PingEvent.gainDisconnected
        ((s.playPingSound true now newTok outcomes).2.2) = 1
    ∧ List.count PingEvent.gainCreated
        ((s.playPingSound true now newTok outcomes).2.2) = 1
    ∧ PingEvent.gainLevelSet ((95 : Rat) / 100 / (s.freqs_.length : Rat))
        ∈ (s.playPingSound true now newTok outcomes).2.2
    ∧ (∀ f ∈ s.freqs_,
        PingEvent.toneStarted f s.pan_
          ∈ ((s.playPingSound true now newTok outcomes).2.2).dropLast)
    ∧ (∀ p ∈ s.freqs_.zip outcomes,
        PingEvent.toneSettled p.1 p.2
          ∈ ((s.playPingSound true now newTok outcomes).2.2).dropLast) := by
  have hplay : s.playPingSound true now newTok outcomes
      = (none, { s with abortPreviousPing_ := newTok },
         (PingEvent.tokenAborted s.abortPreviousPing_
            :: PingEvent.gainCreated
            :: PingEvent.gainConnected
            :: PingEvent.gainLevelSet ((95 : Rat) / 100 / (s.freqs_.length : Rat))
            :: PingEvent.gainRampScheduled ((1 : Rat) / 1000)
                 (now + s.ping_duration_secs_)
            :: (s.freqs_.map (fun f => PingEvent.toneStarted f s.pan_)
                ++ (s.freqs_.zip outcomes).map
                     (fun p => PingEvent.toneSettled p.1 p.2)))
           ++ [PingEvent.gainDisconnected]) := rfl
  refine ⟨by rw [hplay], ?_, ?_, ?_, ?_, ?_, ?_⟩
  · rw [hplay]
    exact List.getLast?_concat _
  · rw [hplay]
    have h1 : List.count PingEvent.gainDisconnected
        (s.freqs_.map (fun f => PingEvent.toneStarted f s.pan_)) = 0 := by
      rw [List.count_eq_zero]
      simp
    have h2 : List.count PingEvent.gainDisconnected
        ((s.freqs_.zip outcomes).map
          (fun p => PingEvent.toneSettled p.1 p.2)) = 0 := by
      rw [List.count_eq_zero]
      simp
    simp [List.count_append, List.count_cons, h1, h2]
  · rw [hplay]
    have h1 : List.count PingEvent.gainCreated
        (s.freqs_.map (fun f => PingEvent.toneStarted f s.pan_)) = 0 := by
      rw [List.count_eq_zero]
      simp
    have h2 : List.count PingEvent.gainCreated
        ((s.freqs_.zip outcomes).map
          (fun p => PingEvent.toneSettled p.1 p.2)) = 0 := by
      rw [List.count_eq_zero]
      simp
    simp [List.count_append, List.count_cons, h1, h2]
  · rw [hplay]
    simp
  · intro f hf
    rw [hplay]
    rw [List.dropLast_concat]
    simp only [List.mem_cons, List.mem_append, List.mem_map]
    exact Or.inr (Or.inr (Or.inr (Or.inr (Or.inr (Or.inl ⟨f, hf, rfl⟩)))))
  · intro p hp
    rw [hplay]
    rw [List.dropLast_concat]
    simp only [List.mem_cons, List.mem_append, List.mem_map]
    exact Or.inr (Or.inr (Or.inr (Or.inr (Or.inr (Or.inr ⟨p, hp, rfl⟩)))))

/-- Witness for the settle-all burst theorem: the three-tone chord of the
spec scenario with a mixed aborted/natural settlement still completes and
ends with the gain-stage teardown. -/
theorem pingBurst_settleAll_witness :
    (PingController.playPingSound
        ⟨0, [440, 55437 / 100, 65925 / 100], 1, 3⟩ true 0 4
        [ToneOutcome.abortedTone, ToneOutcome.endedNaturally,
         ToneOutcome.endedNaturally]).1 = none
    ∧ ((PingController.playPingSound
        ⟨0, [440, 55437 / 100, 65925 / 100], 1, 3⟩ true 0 4
        [ToneOutcome.abortedTone, ToneOutcome.endedNaturally,
         ToneOutcome.endedNaturally]).2.2).getLast?
      = some PingEvent.gainDisconnected := by
  have h := pingBurst_settleAll
    ⟨0, [440, 55437 / 100, 65925 / 100], 1, 3⟩ 0 4
    [ToneOutcome.abortedTone, ToneOutcome.endedNaturally,
     ToneOutcome.endedNaturally]
    (by decide) (by decide)
  exact ⟨h.1, h.2.1⟩

/-- C10: when the destination-node factory yields no audio destination,
playPingSound throws before touching the previous burst's abort controller,
so the instance state is unchanged and no action is performed (the previous
in-flight burst keeps playing); when acquisition succeeds, the very first
action is aborting the previous burst's controller, after which the freshly
minted controller is stored. -/
theorem pingAcquisitionFailure_keepsPreviousBurst (s : PingController)
    (now : Rat) (newTok : Nat) (outcomes : List ToneOutcome) :
    s.playPingSound false now newTok outcomes
      = (some "Failed to initialize AudioContext", s, [])
    ∧ ((s.playPingSound true now newTok outcomes).2.2).head?
      = some (PingEvent.tokenAborted s.abortPreviousPing_)
    ∧ (s.playPingSound true now newTok outcomes).2.1.abortPreviousPing_
      = newTok := by
  exact ⟨rfl, rfl, rfl⟩

/-- A device-selection value as it flows through the code: a JavaScript
string, the null value (also standing for an unset selection), or the
structured none marker object written as a type-none record. -/
inductive SinkId where
  | str (s : String)
  | jsNull
  | noneObj
deriving DecidableEq

namespace SinkIds

/-- Sentinel for the muted pseudo-device (src/app.js:311). -/
def NONE : SinkId := SinkId.str "none"

/-- Sentinel for the default device (src/app.js:318). -/
def DEFAULT : SinkId := SinkId.str ""

/-- Embedding of SinkIds.isNone (src/app.js:312-315). -/
def isNone : SinkId → Bool
  | SinkId.str s => s == "none"
  | SinkId.jsNull => false
  | SinkId.noneObj => true

/-- Embedding of SinkIds.isDefault (src/app.js:319-321). -/
def isDefault : SinkId → Bool
  | SinkId.str s => s == "" || s == "default"
  | SinkId.jsNull => true
  | SinkId.noneObj => false

/-- Embedding of SinkIds.areSame (src/app.js:323-327). -/
def areSame (a b : SinkId) : Bool :=
  (a == b) || (isNone a && isNone b) || (isDefault a && isDefault b)

end SinkIds

/-- Modelled from the spec's wording, for comparison with SinkIds.areSame:
two selections are equivalent iff they are identical, or both are among the
empty string, the literal string default and null/unset, or both are among
the literal none sentinel and the structured type-none object. -/
def areSameSpec (a b : SinkId) : Bool :=
  (a == b)
  || (List.elem a [SinkId.str "", SinkId.str "default", SinkId.jsNull]
      && List.elem b [SinkId.str "", SinkId.str "default", SinkId.jsNull])
  || (List.elem a [SinkId.str "none", SinkId.noneObj]
      && List.elem b [SinkId.str "none", SinkId.noneObj])

/-- Embedding of
AudioOutputDeviceSelectController.updateSinkIfContextAvailable_
(src/app.js:373-380): given the current audio context's sink id (none when no
context has been created yet) and the current selection, returns the argument
of the setSinkId route-change call, or none when no call is issued. -/
def updateSinkIfContextAvailable_ (audioCtxSinkId : Option SinkId)
    (selectedDevice : SinkId) : Option SinkId :=
  match audioCtxSinkId with
  | none => none
  | some sinkId =>
    if SinkIds.areSame selectedDevice sinkId then none
    else some (if SinkIds.isNone selectedDevice then SinkId.noneObj
               else selectedDevice)

/-- Helper: boolean equality on strings agrees with decided propositional
equality. -/
theorem str_beq_decide (a b : String) : (a == b) = decide (a = b) := by
  by_cases h : a = b <;> simp [h]

/-- C5: the device-selection equivalence of the code coincides exactly with
the spec's relation (identical values, or both among empty string / the
literal default / null-unset, or both among the none sentinel and the
structured none object), and with an audio context present the route-change
call is skipped precisely when the selection and the context's sink id are
equivalent. -/
theorem sinkIds_equivalence (a b ctxSink sel : SinkId) :
    SinkIds.areSame a b = areSameSpec a b
    ∧ (updateSinkIfContextAvailable_ (some ctxSink) sel = none
        ↔ SinkIds.areSame sel ctxSink = true) := by
  constructor
  · cases a <;> cases b <;>
      simp [SinkIds.areSame, SinkIds.isNone, SinkIds.isDefault, areSameSpec,
            List.elem_cons, str_beq_decide, Bool.or_assoc, Bool.and_assoc,
            Bool.or_comm, Bool.or_left_comm]
  · unfold updateSinkIfContextAvailable_
    by_cases h : SinkIds.areSame sel ctxSink = true
    · simp [h]
    · simp [h]

/-- Witness for the equivalence theorem: the empty string and null are
equivalent selections and issue no route change; a concrete device string
against the default sink is not equivalent and issues one. -/
theorem sinkIds_equivalence_witness :
    SinkIds.areSame (SinkId.str "") SinkId.jsNull
      = areSameSpec (SinkId.str "") SinkId.jsNull
    ∧ updateSinkIfContextAvailable_ (some SinkId.jsNull) (SinkId.str "") = none
    ∧ updateSinkIfContextAvailable_ (some (SinkId.str ""))
        (SinkId.str "abc") = some (SinkId.str "abc") := by
  refine ⟨(sinkIds_equivalence (SinkId.str "") SinkId.jsNull
      SinkId.jsNull (SinkId.str "")).1, ?_, ?_⟩
  · exact (sinkIds_equivalence (SinkId.str "") SinkId.jsNull
      SinkId.jsNull (SinkId.str "")).2.mpr (by decide)
  · decide

/-- Visible wake-signal status: the status element's class name, the progress
bar value, and the approximate minutes shown by the waiting text (none until
it has been written). -/
structure WakeUi where
  className : String
  barValue : Int
  waitingMinutes : Option Int
deriving DecidableEq

/-- Embedding of WakeSignalController.updateWaitTimerText_
(src/app.js:204-218): skipped entirely while the playing class is shown;
otherwise recomputes the remaining seconds to the next fire, updates the
progress bar and writes the approximate-minutes waiting text. -/
def updateWaitTimerText_ (ui : WakeUi) (nextUnixMsec now delaySecs : Int) :
    WakeUi :=
  if ui.className = "playing" then ui
  else
    let seconds := jsRoundDiv (nextUnixMsec - now) 1000
    { className := ui.className,
      barValue := delaySecs - seconds,
      waitingMinutes := some (jsRoundDiv seconds 60) }

/-- Embedding of WakeSignalController.notifyEnteringWaitingState
(src/app.js:195-202): sets the waiting class and then refreshes the
countdown display. -/
def notifyEnteringWaitingState (ui : WakeUi)
    (nextUnixMsec now delaySecs : Int) : WakeUi :=
  updateWaitTimerText_ { ui with className := "waiting" }
    nextUnixMsec now delaySecs

/-- How the awaited playSoundOnce_ settles. -/
inductive PlayOutcome where
  | natural
  | abortedPlay
  | failure (msg : String)
deriving DecidableEq

/-- How the guarded wake-interval callback itself settles. -/
inductive CbResult where
  | completed
  | returned
  | raised (msg : String)
deriving DecidableEq

/-- Embedding of WakeSignalController.playSoundCallbackFn_
(src/app.js:155-169): shows the playing class and a full progress bar, then
awaits the tone; an AbortedError settlement returns silently, any other
error is re-thrown, and natural completion enters the waiting state. -/
def playSoundCallbackFn_ (ui : WakeUi) (nextUnixMsec now delaySecs : Int)
    (o : PlayOutcome) : WakeUi × CbResult :=
  let ui1 := { ui with className := "playing", barValue := delaySecs }
  match o with
  | PlayOutcome.natural =>
    (notifyEnteringWaitingState ui1 nextUnixMsec now delaySecs,
     CbResult.completed)
  | PlayOutcome.abortedPlay => (ui1, CbResult.returned)
  | PlayOutcome.failure m => (ui1, CbResult.raised m)

/-- C7: when the tone settles with AbortedError the wake-interval callback
returns without entering the waiting state (the class stays playing and the
waiting text is untouched); on natural completion it transitions to the
waiting class and recomputes the countdown (bar value and approximate
minutes) from the next fire time; any other error is re-thrown unchanged. -/
theorem playSoundCallback_errorPolicy (ui : WakeUi)
    (nextUnixMsec now delaySecs : Int) :
    playSoundCallbackFn_ ui nextUnixMsec now delaySecs PlayOutcome.abortedPlay
      = ({ ui with className := "playing", barValue := delaySecs },
         CbResult.returned)
    ∧ playSoundCallbackFn_ ui nextUnixMsec now delaySecs PlayOutcome.natural
      = ({ className := "waiting",
           barValue := delaySecs - jsRoundDiv (nextUnixMsec - now) 1000,
           waitingMinutes :=
             some (jsRoundDiv (jsRoundDiv (nextUnixMsec - now) 1000) 60) },
         CbResult.completed)
    ∧ ∀ m : String,
        playSoundCallbackFn_ ui nextUnixMsec now delaySecs
            (PlayOutcome.failure m)
          = ({ ui with className := "playing", barValue := delaySecs },
             CbResult.raised m) := by
  refine ⟨rfl, ?_, fun m => rfl⟩
  simp [playSoundCallbackFn_, notifyEnteringWaitingState, updateWaitTimerText_]

/-- Witness for the wake-callback error-policy theorem at a concrete display
state and timing. -/
theorem playSoundCallback_errorPolicy_witness :
    playSoundCallbackFn_ ⟨"waiting", 3, some 2⟩ 90000 0 600
        PlayOutcome.abortedPlay
      = (⟨"playing", 600, some 2⟩, CbResult.returned)
    ∧ playSoundCallbackFn_ ⟨"waiting", 3, some 2⟩ 90000 0 600
        PlayOutcome.natural
      = (⟨"waiting", 510, some 2⟩, CbResult.completed) := by
  refine ⟨(playSoundCallback_errorPolicy ⟨"waiting", 3, some 2⟩ 90000 0 600).1, ?_⟩
  have h := (playSoundCallback_errorPolicy ⟨"waiting", 3, some 2⟩ 90000 0 600).2.1
  rw [h]
  decide

/-- Button caption while stopped (src/app.js:12). -/
def BUTTON_TEXT_START : String := "▶ Start"

/-- Button caption while running (src/app.js:13). -/
def BUTTON_TEXT_STOP : String := "■ Stop"

/-- Which handler the play/pause button currently invokes. -/
inductive ButtonAction where
  | startAction
  | stopAction
deriving DecidableEq

/-- State of the WakeSignalController (src/app.js:124-248) relevant to its
lifecycle: whether mountTo has run, the button caption and handler, the
current AbortController (by id, plus whether it has been aborted), and the
two PeriodicCallback instances. -/
structure WakeSignalController where
  buttonMounted : Bool
  buttonText : String
  buttonAction : ButtonAction
  tokenId : Nat
  tokenAborted : Bool
  playSoundPeriodicCallback_ : PeriodicCallback
  updateWaitingTextPeriodicCallback_ : PeriodicCallback
deriving DecidableEq

/-- Observable actions of WakeSignalController.startPeriodicAudio_. -/
inductive WakeEvent where
  | errorLogged
  | tokenAborted (id : Nat)
  | playFireTriggered (r : FireResult)
  | updateFireTriggered (r : FireResult)
deriving DecidableEq

/-- Embedding of WakeSignalController.startPeriodicAudio_
(src/app.js:220-235): bails out with a logged error when the button is not
mounted; otherwise unconditionally aborts the current AbortController
(dispatching to its listeners when it was still live), replaces it with a
fresh one, starts both PeriodicCallback instances (each a no-op if already
running, otherwise firing immediately), and rebinds the button to Stop. -/
def WakeSignalController.startPeriodicAudio_ (s : WakeSignalController)
    (newTokenId playTimerId updateTimerId : Nat) (now : Int) :
    WakeSignalController × List WakeEvent :=
  if s.buttonMounted = false then (s, [WakeEvent.errorLogged])
  else
    let abortEvents :=
      if s.tokenAborted then [] else [WakeEvent.tokenAborted s.tokenId]
    let playStart := s.playSoundPeriodicCallback_.start playTimerId now
    let updateStart :=
      s.updateWaitingTextPeriodicCallback_.start updateTimerId now
    let fireEvents :=
      (match playStart.2 with
        | StartEffect.noop => []
        | StartEffect.started _ r => [WakeEvent.playFireTriggered r])
      ++ (match updateStart.2 with
        | StartEffect.noop => []
        | StartEffect.started _ r => [WakeEvent.updateFireTriggered r])
    ({ s with tokenId := newTokenId, tokenAborted := false,
              playSoundPeriodicCallback_ := playStart.1,
              updateWaitingTextPeriodicCallback_ := updateStart.1,
              buttonText := BUTTON_TEXT_STOP,
              buttonAction := ButtonAction.stopAction },
     abortEvents ++ fireEvents)

/-- Counterexample to C4 as stated: on a mounted, already-running engine with
a live token, calling start() is not a no-op — it aborts the current token
(which aborts a tone playing at that moment) and changes the engine state by
storing a fresh token. -/
theorem wakeStart_notIdempotent_counterexample :
    (WakeSignalController.startPeriodicAudio_
        ⟨true, "■ Stop", ButtonAction.stopAction, 1, false,
         ⟨1080000, 2000, some 5, false⟩, ⟨15000, 900, some 6, false⟩⟩
        2 7 8 1000).2
      = [WakeEvent.tokenAborted 1]
    ∧ (WakeSignalController.startPeriodicAudio_
        ⟨true, "■ Stop", ButtonAction.stopAction, 1, false,
         ⟨1080000, 2000, some 5, false⟩, ⟨15000, 900, some 6, false⟩⟩
        2 7 8 1000).1
      ≠ ⟨true, "■ Stop", ButtonAction.stopAction, 1, false,
         ⟨1080000, 2000, some 5, false⟩, ⟨15000, 900, some 6, false⟩⟩ := by
  decide

/-- C4 amended: calling start() on a mounted, already-running engine with a
live token cancels that token (aborting any in-flight tone) and mints a
fresh one; everything else is unchanged — both periodic schedulers' start()
calls are no-ops, no immediate fire is triggered, and the button stays bound
to Stop. -/
theorem wakeStart_onRunning (s : WakeSignalController)
    (newTokenId playTimerId updateTimerId : Nat) (now : Int)
    (hm : s.buttonMounted = true)
    (hp : (s.playSoundPeriodicCallback_.callbackId).isSome = true)
    (hu : (s.updateWaitingTextPeriodicCallback_.callbackId).isSome = true)
    (ht : s.tokenAborted = false) :
    s.startPeriodicAudio_ newTokenId playTimerId updateTimerId now
      = ({ s with tokenId := newTokenId, tokenAborted := false,
                  buttonText := BUTTON_TEXT_STOP,
                  buttonAction := ButtonAction.stopAction },
         [WakeEvent.tokenAborted s.tokenId]) := by
  simp [WakeSignalController.startPeriodicAudio_, PeriodicCallback.start,
        hm, hp, hu, ht]

/-- Witness for the amended start-on-running theorem at the concrete running
state of the counterexample. -/
theorem wakeStart_onRunning_witness :
    WakeSignalController.startPeriodicAudio_
        ⟨true, "x", ButtonAction.stopAction, 1, false,
         ⟨1080000, 2000, some 5, false⟩, ⟨15000, 900, some 6, false⟩⟩
        2 7 8 1000
      = (⟨true, BUTTON_TEXT_STOP, ButtonAction.stopAction, 2, false,
          ⟨1080000, 2000, some 5, false⟩, ⟨15000, 900, some 6, false⟩⟩,
         [WakeEvent.tokenAborted 1]) := by
  exact wakeStart_onRunning
    ⟨true, "x", ButtonAction.stopAction, 1, false,
     ⟨1080000, 2000, some 5, false⟩, ⟨15000, 900, some 6, false⟩⟩
    2 7 8 1000 rfl rfl rfl rfl

/-- A select element holding device options (value/text pairs) and the index
of the currently selected option (-1 when empty, as in the DOM). -/
structure DeviceSelect where
  options : List (String × String)
  selectedIndex : Int
deriving DecidableEq

/-- The select element's value: the value of the selected option, or the
empty string when no option is selected. -/
def DeviceSelect.value (sel : DeviceSelect) : String :=
  if sel.selectedIndex < 0 then ""
  else
    match sel.options.get? sel.selectedIndex.toNat with
    | some o => o.1
    | none => ""

/-- Embedding of the addDevice closure of updateHtml_ (src/app.js:408-417):
appends an option (the DOM auto-selects the first option added to an empty
single-select), and moves the selection to this option when its id equals
the remembered selected device. -/
def addDeviceOption (selectedDevice : String) (sel : DeviceSelect)
    (d : String × String) : DeviceSelect :=
  let opts := sel.options ++ [d]
  let idx0 := if sel.selectedIndex < 0 then 0 else sel.selectedIndex
  ⟨opts, if d.1 = selectedDevice then (opts.length : Int) - 1 else idx0⟩

/-- The two always-present options of updateHtml_ (src/app.js:404-407). -/
def STANDARD_DEVICES : List (String × String) :=
  [("", "Default"), ("none", "Mute")]

/-- Embedding of AudioOutputDeviceSelectController.updateHtml_
(src/app.js:403-432): rebuilds the selector from the standard sentinels plus
the freshly enumerated devices, then — when the selector's value does not
match the remembered selection — logs a warning and falls back to the
default sentinel.  Returns the rebuilt selector, the remembered selection
after the call, and whether the warning was recorded. -/
def updateHtml_ (selectedDevice : String)
    (newDevices : List (String × String)) :
    DeviceSelect × String × Bool :=
  let sel1 := (STANDARD_DEVICES ++ newDevices).foldl
    (addDeviceOption selectedDevice) ⟨[], -1⟩
  if sel1.value = selectedDevice then (sel1, selectedDevice, false)
  else (⟨sel1.options, 0⟩, "", true)

/-- Helper: the option-adding fold only ever appends to the option list. -/
theorem foldl_addDeviceOption_options (sd : String)
    (ds : List (String × String)) :
    ∀ st : DeviceSelect,
      (ds.foldl (addDeviceOption sd) st).options = st.options ++ ds := by
  induction ds with
  | nil => intro st; simp
  | cons d rest ih =>
    intro st
    rw [List.foldl_cons, ih]
    simp [addDeviceOption]

/-- Helper: a selector's value is the empty string or one of its option
values. -/
theorem deviceSelect_value_cases (sel : DeviceSelect) :
    sel.value = "" ∨ sel.value ∈ sel.options.map Prod.fst := by
  unfold DeviceSelect.value
  by_cases hneg : sel.selectedIndex < 0
  · left
    simp [hneg]
  · rw [if_neg hneg]
    cases hget : sel.options.get? sel.selectedIndex.toNat with
    | none => left; rfl
    | some o =>
      right
      exact List.mem_map_of_mem Prod.fst (List.get?_mem hget)

/-- C8: after a device refresh, if the remembered selection is not among the
ids of the rebuilt option list (the standard sentinels plus the fresh
devices), the selection falls back to the default sentinel, the warning is
recorded, and the resulting binding is the id of an option that exists in
the selector. -/
theorem deviceRefresh_fallback (selectedDevice : String)
    (newDevices : List (String × String))
    (h : selectedDevice ∉ (STANDARD_DEVICES ++ newDevices).map Prod.fst) :
    updateHtml_ selectedDevice newDevices
      = (⟨STANDARD_DEVICES ++ newDevices, 0⟩, "", true)
    ∧ (updateHtml_ selectedDevice newDevices).2.1
        ∈ (updateHtml_ selectedDevice newDevices).1.options.map Prod.fst := by
  have hopts : ((STANDARD_DEVICES ++ newDevices).foldl
      (addDeviceOption selectedDevice) ⟨[], -1⟩).options
        = STANDARD_DEVICES ++ newDevices := by
    rw [foldl_addDeviceOption_options]
    rfl
  have hdefault : "" ∈ (STANDARD_DEVICES ++ newDevices).map Prod.fst := by
    simp [STANDARD_DEVICES]
  have hval : ¬ ((STANDARD_DEVICES ++ newDevices).foldl
      (addDeviceOption selectedDevice) ⟨[], -1⟩).value = selectedDevice := by
    rcases deviceSelect_value_cases ((STANDARD_DEVICES ++ newDevices).foldl
      (addDeviceOption selectedDevice) ⟨[], -1⟩) with h0 | hm
    · intro hc
      rw [h0] at hc
      exact h (hc ▸ hdefault)
    · intro hc
      rw [hopts] at hm
      exact h (hc ▸ hm)
  have hres : updateHtml_ selectedDevice newDevices
      = (⟨STANDARD_DEVICES ++ newDevices, 0⟩, "", true) := by
    unfold updateHtml_
    rw [if_neg hval, hopts]
  refine ⟨hres, ?_⟩
  rw [hres]
  exact hdefault

/-- Witness for the fallback theorem at the spec's scenario: the remembered
selection xyz is absent from the refreshed list, so the binding falls back
to the default sentinel with a warning. -/
theorem deviceRefresh_fallback_witness :
    updateHtml_ "xyz" [("abc", "Speakers")]
      = (⟨[("", "Default"), ("none", "Mute"), ("abc", "Speakers")], 0⟩,
         "", true) := by
  exact (deviceRefresh_fallback "xyz" [("abc", "Speakers")] (by decide)).1

/-- One entry of navigator.mediaDevices.enumerateDevices(). -/
structure MediaDeviceInfo where
  deviceId : String
  kind : String
  label : String
deriving DecidableEq

/-- String conversion applied by JavaScript when a plain id/label record is
passed where a string is expected (Object.prototype.toString). -/
def jsObjectToString (d : String × String) : String := "[object Object]"

/-- Lexicographic comparison of code-point sequences: negative when the
first sorts strictly first, zero on equality, positive otherwise. -/
def codePointLex : List Nat → List Nat → Int
  | [], [] => 0
  | [], _ :: _ => -1
  | _ :: _, [] => 1
  | a :: as, b :: bs =>
    if a < b then -1 else if b < a then 1 else codePointLex as bs

/-- Model of String.prototype.localeCompare under code-point collation. -/
def localeCompareInt (a b : String) : Int :=
  codePointLex (a.toList.map Char.toNat) (b.toList.map Char.toNat)

/-- The comparator the code passes to sort (src/app.js:392): it compares
a.label against the string conversion of the entire record b — not against
b.label. -/
def refreshComparator (a b : String × String) : Int :=
  localeCompareInt a.2 (jsObjectToString b)

/-- Stable insertion respecting a JS sort comparator: the new element is
placed after every existing element the comparator does not order strictly
after it. -/
def jsSortInsert (cmp : (String × String) → (String × String) → Int)
    (x : String × String) :
    List (String × String) → List (String × String)
  | [] => [x]
  | y :: rest =>
    if cmp y x ≤ 0 then y :: jsSortInsert cmp x rest else x :: y :: rest

/-- Comparator-driven stable sort modelling Array.prototype.sort. -/
def jsSortWith (cmp : (String × String) → (String × String) → Int)
    (l : List (String × String)) : List (String × String) :=
  l.foldl (fun acc x => jsSortInsert cmp x acc) []

/-- Embedding of AudioOutputDeviceSelectController.refreshDevices_
(src/app.js:382-394): keep the audio-output devices whose id is not a
default pseudo-device id, project them to id/label pairs, and sort with the
code's comparator. -/
def refreshDevices_ (devices : List MediaDeviceInfo) :
    List (String × String) :=
  let outputs := devices.filter (fun d =>
    d.kind == "audiooutput"
      && !(SinkIds.isDefault (SinkId.str d.deviceId)))
  jsSortWith refreshComparator (outputs.map (fun d => (d.deviceId, d.label)))

/-- Whether a device list is sorted ascending by label, under the same
collation the comparator model uses. -/
def labelsSorted : List (String × String) → Bool
  | [] => true
  | [_] => true
  | a :: b :: rest =>
    (decide (localeCompareInt a.2 b.2 ≤ 0)) && labelsSorted (b :: rest)

/-- C9: the sorting step of refreshDevices_ cannot sort by label: its
comparator returns the same value whatever the second argument is (the
second argument's label is never consulted, since the record itself is
coerced to the constant string object-Object), and on a concrete enumeration
the returned list — correctly filtered to non-default audio outputs and
projected to id/label pairs — is not in ascending label order. -/
theorem refreshDevices_sortNotByLabel :
    (∀ a b c : String × String, refreshComparator a b = refreshComparator a c)
    ∧ refreshDevices_
        [⟨"default", "audiooutput", "Default"⟩,
         ⟨"mic1", "audioinput", "alpha mic"⟩,
         ⟨"d1", "audiooutput", "alpha"⟩,
         ⟨"d2", "audiooutput", "beta"⟩]
      = [("d2", "beta"), ("d1", "alpha")]
    ∧ labelsSorted [("d2", "beta"), ("d1", "alpha")] = false := by
  refine ⟨fun a b c => rfl, by decide, by decide⟩
